import Mathlib

/-!
Verification development for the v0rtex pagination engine
(`src/v0rtex/core/pagination/{state,strategy,detector,navigator}.py`).

Shallow embedding conventions:
* Python `int` is embedded as `Int` (arbitrary precision, signed); counts
  that the source produces from `len(...)` or digit parsing are `Nat`.
* `datetime` instants are embedded as an abstract clock value `Nat`; every
  operation that performs `datetime.now()` takes the current clock as an
  explicit `now` argument.  `isoformat`/`fromisoformat` are embedded as a
  decimal text codec over that clock, which is exact and injective just as
  Python's ISO-8601 round-trip is.
* Methods that mutate `self` become functions `... → PaginationState → ...`
  returning the updated state; `raise` becomes `Except`.
-/

namespace V0rtex

/-- Python truthiness of an `Optional[int]`: `None` and `0` are falsy. -/
def truthyOptInt : Option Int → Bool
  | none => false
  | some n => n != 0

/-- `list.remove(x)`: removes the first occurrence only (no-op here if absent;
the source guards the call with `if page in self.failed_pages`). -/
def removeFirst (x : Int) : List Int → List Int
  | [] => []
  | y :: ys => if y == x then ys else y :: removeFirst x ys

/-- The `PaginationState` dataclass (state.py lines 18–31) after
`__post_init__` has run: `failed_pages`, `start_time`, `last_activity` are
always populated. -/
structure PaginationState where
  current_page : Int
  total_pages : Option Int
  total_items : Int
  items_per_page : Int
  strategy : String
  last_successful_page : Int
  failed_pages : List Int
  start_time : Nat
  last_activity : Nat
  session_id : Option String
  deriving Repr, DecidableEq

namespace PaginationState

/-- Dataclass construction with all fields defaulted, followed by
`__post_init__` (state.py lines 33–38): `failed_pages = []`,
`start_time = now`, and `last_activity = now` unconditionally. -/
def fresh (now : Nat) : PaginationState :=
  { current_page := 1
    total_pages := none
    total_items := 0
    items_per_page := 0
    strategy := "auto"
    last_successful_page := 1
    failed_pages := []
    start_time := now
    last_activity := now
    session_id := none }

/-- Dataclass construction with every field supplied (as in
`cls(**state_data)`), followed by `__post_init__`: a `None` `failed_pages`
becomes `[]`, a `None` `start_time` becomes `now`, and `last_activity` is
overwritten with `now` regardless of the supplied value. -/
def construct (cp : Int) (tp : Option Int) (ti ipp : Int) (strat : String)
    (lsp : Int) (fp : Option (List Int)) (st : Option Nat) (_la : Option Nat)
    (sid : Option String) (now : Nat) : PaginationState :=
  { current_page := cp
    total_pages := tp
    total_items := ti
    items_per_page := ipp
    strategy := strat
    last_successful_page := lsp
    failed_pages := fp.getD []
    start_time := st.getD now
    last_activity := now
    session_id := sid }

/-- `next_page` (state.py lines 40–45): increments `current_page`, stamps
`last_activity`, returns the new page number. -/
def next_page (now : Nat) (s : PaginationState) : PaginationState × Int :=
  let s' := { s with current_page := s.current_page + 1, last_activity := now }
  (s', s'.current_page)

/-- `set_page` (state.py lines 47–53): raises `ValueError` when `page < 1`
(before any field is touched), otherwise sets `current_page` and stamps
`last_activity`. -/
def set_page (page : Int) (now : Nat) (s : PaginationState) :
    Except String PaginationState :=
  if page < 1 then .error "Page number must be >= 1"
  else .ok { s with current_page := page, last_activity := now }

/-- `mark_page_success` (state.py lines 55–65). -/
def mark_page_success (page items_found : Int) (now : Nat)
    (s : PaginationState) : PaginationState :=
  { s with
    last_successful_page := page
    total_items := s.total_items + items_found
    last_activity := now
    failed_pages :=
      if page ∈ s.failed_pages then removeFirst page s.failed_pages
      else s.failed_pages }

/-- `mark_page_failed` (state.py lines 67–72): appends `page` when absent. -/
def mark_page_failed (page : Int) (now : Nat) (s : PaginationState) :
    PaginationState :=
  { s with
    failed_pages :=
      if page ∈ s.failed_pages then s.failed_pages
      else s.failed_pages ++ [page]
    last_activity := now }

/-- `can_continue` (state.py lines 74–91).  Note the source tests the limits
with Python truthiness (`if max_pages and ...`), so `None` *and* `0` both
disable a check. -/
def can_continue (s : PaginationState) (max_pages max_items : Option Int) :
    Bool :=
  if truthyOptInt max_pages && decide (s.current_page ≥ max_pages.getD 0) then
    false
  else if truthyOptInt max_items && decide (s.total_items ≥ max_items.getD 0) then
    false
  else if truthyOptInt s.total_pages && decide (s.current_page > s.total_pages.getD 0) then
    false
  else
    true

/-- `reset` (state.py lines 200–210).  The source resets `current_page`,
`total_pages`, `total_items`, `items_per_page`, `last_successful_page`,
`failed_pages`, `start_time` and `last_activity` — and nothing else:
`strategy` and `session_id` are left as they were. -/
def reset (now : Nat) (s : PaginationState) : PaginationState :=
  { s with
    current_page := 1
    total_pages := none
    total_items := 0
    items_per_page := 0
    last_successful_page := 1
    failed_pages := []
    start_time := now
    last_activity := now }

end PaginationState

/-! Decimal text codec

Embeds Python's `str(n)` for non-negative integers and digit-string parsing
(`int(match.group(1))`), both of which the pagination code uses, and serves
as the exact, injective text encoding of clock instants standing in for
`datetime.isoformat`/`fromisoformat` (which round-trip exactly in Python). -/

/-- `int(s)` on a string of decimal digits. -/
def parseNat (l : List Char) : Nat :=
  l.foldl (fun n c => n * 10 + (c.toNat - 48)) 0

/-- `str(n)` for a natural number, fuel-based so that it reduces in the
kernel (`n + 1` fuel always suffices, see `natRepr_unfold`). -/
def natReprGo (fuel n : Nat) (acc : List Char) : List Char :=
  match fuel with
  | 0 => acc
  | fuel + 1 =>
    if n < 10 then Nat.digitChar n :: acc
    else natReprGo fuel (n / 10) (Nat.digitChar (n % 10) :: acc)

/-- `str(n)` for a natural number. -/
def natRepr (n : Nat) : List Char := natReprGo (n + 1) n []

/-! Serialization (`save_state`/`load_state`, state.py lines 167–198)

The JSON blob is embedded as a structure; file I/O and JSON decoding are
abstracted: `none` at the `Option StateBlob` level models a missing or
corrupt file (any exception inside `load_state` is caught and yields a
fresh default state). -/

/-- The persisted JSON object produced by `save_state`: `datetime` fields
are serialized to text, everything else verbatim. -/
structure StateBlob where
  current_page : Int
  total_pages : Option Int
  total_items : Int
  items_per_page : Int
  strategy : String
  last_successful_page : Int
  failed_pages : List Int
  start_time : String
  last_activity : String
  session_id : Option String
  deriving Repr, DecidableEq

/-- `datetime.isoformat`: exact, injective text encoding of an instant. -/
def isoformat (t : Nat) : String := String.mk (natRepr t)

/-- `datetime.fromisoformat`: inverts `isoformat`; anything else raises,
modeled as `none`. -/
def fromisoformat (s : String) : Option Nat :=
  if s.data.all Char.isDigit && !s.data.isEmpty then some (parseNat s.data)
  else none

/-- `save_state` (state.py lines 167–181): `asdict(self)` with the two
`datetime` fields converted to ISO text. -/
def save_state (s : PaginationState) : StateBlob :=
  { current_page := s.current_page
    total_pages := s.total_pages
    total_items := s.total_items
    items_per_page := s.items_per_page
    strategy := s.strategy
    last_successful_page := s.last_successful_page
    failed_pages := s.failed_pages
    start_time := isoformat s.start_time
    last_activity := isoformat s.last_activity
    session_id := s.session_id }

/-- `load_state` (state.py lines 183–198): parse the two time fields back,
then `cls(**state_data)` — which re-runs `__post_init__`.  Any exception
(missing file, bad JSON, unparsable timestamp) yields `cls()`, a fresh
default state. -/
def load_state (blob : Option StateBlob) (now : Nat) : PaginationState :=
  match blob with
  | none => .fresh now
  | some b =>
    match fromisoformat b.start_time, fromisoformat b.last_activity with
    | some st, some la =>
      PaginationState.construct b.current_page b.total_pages b.total_items
        b.items_per_page b.strategy b.last_successful_page
        (some b.failed_pages) (some st) (some la) b.session_id now
    | _, _ => .fresh now

/-! Operation sequences and reachability -/

/-- One `mark_page_success`/`mark_page_failed` call with its arguments. -/
inductive RecordOp where
  | success (page items : Int) (now : Nat)
  | failure (page : Int) (now : Nat)
  deriving Repr, DecidableEq

def applyRecordOp : RecordOp → PaginationState → PaginationState
  | .success page items now, s => s.mark_page_success page items now
  | .failure page now, s => s.mark_page_failed page now

def applyRecordOps (ops : List RecordOp) (s : PaginationState) :
    PaginationState :=
  ops.foldl (fun s op => applyRecordOp op s) s

/-- `RecordOp.success` carries a non-negative item count. -/
def RecordOp.nonNegItems : RecordOp → Prop
  | .success _ items _ => 0 ≤ items
  | .failure _ _ => True

instance : DecidablePred RecordOp.nonNegItems := by
  intro op; cases op <;> simp [RecordOp.nonNegItems] <;> infer_instance

/-- States reachable from a fresh state through the public operations of
`PaginationState` (including restoring a saved snapshot, with `load_state`
of a corrupt blob yielding a fresh state). -/
inductive Reachable : PaginationState → Prop where
  | fresh (now : Nat) : Reachable (.fresh now)
  | next (now : Nat) {s} : Reachable s →
      Reachable (PaginationState.next_page now s).1
  | set (page : Int) (now : Nat) {s t} : Reachable s →
      PaginationState.set_page page now s = .ok t → Reachable t
  | success (page items : Int) (now : Nat) {s} : Reachable s →
      Reachable (s.mark_page_success page items now)
  | failure (page : Int) (now : Nat) {s} : Reachable s →
      Reachable (s.mark_page_failed page now)
  | reset (now : Nat) {s} : Reachable s →
      Reachable (PaginationState.reset now s)
  | load (now : Nat) {s} : Reachable s →
      Reachable (load_state (some (save_state s)) now)
  | loadFail (now : Nat) : Reachable (load_state none now)

/-! URL machinery (strategy.py / detector.py)

The URL-parameter strategy works on URL strings through `re.search`,
`urllib.parse.urlparse`, `parse_qs`, `urlencode` and `urlunparse`.  The
configured patterns are regexes of two shapes only — `[?&]name=(\d+)`
(query) and `/seg/(\d+)` (path) — so they are embedded as a tagged type
whose search functions implement exactly `re.search`'s leftmost-match,
greedy-digit-run semantics for those shapes.  Percent-encoding and `;`
path parameters do not occur in any input considered here, so
`parse_qs`/`urlencode` are embedded without percent-(de)coding and
`urlparse` with empty `params`. -/

/-- `str.startswith` on character lists (pattern first). -/
def startsWithL : List Char → List Char → Bool
  | [], _ => true
  | _ :: _, [] => false
  | p :: ps, c :: cs => p == c && startsWithL ps cs

/-- Longest prefix of decimal digits — the greedy `(\d+)` capture. -/
def takeDigitsL : List Char → List Char
  | [] => []
  | c :: cs => if c.isDigit then c :: takeDigitsL cs else []

/-- Scan left to right for the first position where `test` matches:
`re.search`'s leftmost-match rule. -/
def scanFor (test : List Char → Option (List Char)) :
    List Char → Option (List Char)
  | [] => none
  | c :: cs =>
    match test (c :: cs) with
    | some r => some r
    | none => scanFor test cs

/-- Does `[?&]name=(\d+)` match at this position?  Returns the captured
digit run. -/
def qparamTest (name : List Char) : List Char → Option (List Char)
  | [] => none
  | c :: cs =>
    if (c == '?' || c == '&') && startsWithL (name ++ ['=']) cs then
      let ds := takeDigitsL (cs.drop (name.length + 1))
      if ds.isEmpty then none else some ds
    else none

/-- Does `seg(\d+)` (with `seg` a literal such as `/page/`) match at this
position?  Returns the captured digit run. -/
def ppathTest (seg : List Char) (l : List Char) : Option (List Char) :=
  if startsWithL seg l then
    let ds := takeDigitsL (l.drop seg.length)
    if ds.isEmpty then none else some ds
  else none

/-- A URL pagination pattern: `[?&]name=(\d+)` or `seg(\d+)`.  The source
stores these as regex strings and distinguishes them with
`pattern.startswith('/')`, which for the configured patterns coincides
with this tag. -/
inductive URLPat where
  | qparam (name : List Char)
  | ppath (seg : List Char)
  deriving Repr, DecidableEq

def URLPat.isPath : URLPat → Bool
  | .qparam _ => false
  | .ppath _ => true

/-- `re.search(pattern, url)`, returning the `(\d+)` capture. -/
def patSearch : URLPat → List Char → Option (List Char)
  | .qparam name, l => scanFor (qparamTest name) l
  | .ppath seg, l => scanFor (ppathTest seg) l

/-- The default `url_patterns` list (strategy.py lines 58–65). -/
def defaultURLPatterns : List URLPat :=
  [.qparam "page".data, .qparam "p".data, .qparam "pg".data,
   .qparam "pageno".data, .ppath "/page/".data, .ppath "/p/".data]

/-- First path-shaped pattern (in list order) that matches the URL, with
its captured digits — the `for pattern ... if pattern.startswith('/')`
loops of `get_next_page`. -/
def firstPathMatch : List URLPat → List Char → Option (List Char × List Char)
  | [], _ => none
  | .qparam _ :: ps, url => firstPathMatch ps url
  | .ppath seg :: ps, url =>
    match scanFor (ppathTest seg) url with
    | some ds => some (seg, ds)
    | none => firstPathMatch ps url

/-- First query-shaped pattern (in list order) that matches the URL, with
its captured digits. -/
def firstQueryMatch : List URLPat → List Char → Option (List Char)
  | [], _ => none
  | .ppath _ :: ps, url => firstQueryMatch ps url
  | .qparam name :: ps, url =>
    match scanFor (qparamTest name) url with
    | some ds => some ds
    | none => firstQueryMatch ps url

/-- `re.sub(seg + r'(\d+)', repl, l)`: replace every non-overlapping
occurrence, scanning left to right. -/
def subAllPath (seg repl : List Char) : List Char → List Char
  | [] => []
  | c :: cs =>
    if startsWithL seg (c :: cs) then
      match takeDigitsL ((c :: cs).drop seg.length) with
      | [] => c :: subAllPath seg repl cs
      | d :: ds =>
        repl ++ subAllPath seg repl
          ((c :: cs).drop (seg.length + (d :: ds).length))
    else c :: subAllPath seg repl cs
termination_by l => l.length
decreasing_by
  all_goals simp only [List.length_drop, List.length_cons]
  all_goals omega

/-- Split at the first occurrence of `c`: `(before, rest-after-c)`;
`none` when `c` does not occur. -/
def splitFirst (c : Char) : List Char → List Char × Option (List Char)
  | [] => ([], none)
  | x :: xs =>
    if x == c then ([], some xs)
    else
      let r := splitFirst c xs
      (x :: r.1, r.2)

/-- `str.split(c)` (accumulator form). -/
def splitOnAux (c : Char) : List Char → List Char → List (List Char)
  | [], acc => [acc.reverse]
  | x :: xs, acc =>
    if x == c then acc.reverse :: splitOnAux c xs []
    else splitOnAux c xs (x :: acc)

/-- `str.split(c)`. -/
def splitOn (c : Char) (l : List Char) : List (List Char) :=
  splitOnAux c l []

/-- Split the URL at the first `"://"`, yielding scheme and remainder. -/
def splitScheme : List Char → Option (List Char × List Char)
  | [] => none
  | c :: cs =>
    if startsWithL "://".data (c :: cs) then some ([], (c :: cs).drop 3)
    else
      match splitScheme cs with
      | some (a, b) => some (c :: a, b)
      | none => none

/-- `urllib.parse.urlparse` result (the `params` component is empty for
every URL considered here and is omitted). -/
structure ParsedURL where
  scheme : List Char
  netloc : List Char
  path : List Char
  query : List Char
  fragment : List Char
  deriving Repr, DecidableEq

def notNetlocEnd (c : Char) : Bool := !(c == '/' || c == '?' || c == '#')

/-- `urllib.parse.urlparse` for absolute URLs: scheme before `"://"`,
netloc up to the first `/?#`, fragment after the first `#`, query after
the first `?`. -/
def urlparse (l : List Char) : ParsedURL :=
  let (rest, scheme, netloc) :=
    match splitScheme l with
    | some (sch, r) => (r.dropWhile notNetlocEnd, sch, r.takeWhile notNetlocEnd)
    | none => (l, [], [])
  let (beforeFrag, fragPart) := splitFirst '#' rest
  let frag := fragPart.getD []
  let (path, queryPart) := splitFirst '?' beforeFrag
  { scheme := scheme, netloc := netloc, path := path
    query := queryPart.getD [], fragment := frag }

/-- `urllib.parse.urlunparse` (with empty `params`). -/
def urlunparse (u : ParsedURL) : List Char :=
  (if u.scheme.isEmpty then [] else u.scheme ++ [':']) ++
  (if u.netloc.isEmpty then [] else '/' :: '/' :: u.netloc) ++
  u.path ++
  (if u.query.isEmpty then [] else '?' :: u.query) ++
  (if u.fragment.isEmpty then [] else '#' :: u.fragment)

/-- `parse_qsl`-style field splitting: split the query on `&`, split each
field at its first `=`, and drop fields with no `=` or an empty value
(`keep_blank_values=False`). -/
def parseQFields (q : List Char) : List (List Char × List Char) :=
  (splitOn '&' q).filterMap fun field =>
    match splitFirst '=' field with
    | (_, none) => none
    | (k, some v) => if v.isEmpty then none else some (k, v)

/-- Append a value to an existing key (keys keep first-insertion order) or
add a new key at the end — Python dict building inside `parse_qs`. -/
def insertGrouped (acc : List (List Char × List (List Char)))
    (k v : List Char) : List (List Char × List (List Char)) :=
  match acc with
  | [] => [(k, [v])]
  | (k', vs) :: rest =>
    if k' == k then (k', vs ++ [v]) :: rest
    else (k', vs) :: insertGrouped rest k v

/-- `urllib.parse.parse_qs`. -/
def parse_qs (q : List Char) : List (List Char × List (List Char)) :=
  (parseQFields q).foldl (fun acc kv => insertGrouped acc kv.1 kv.2) []

/-- `d[key] = value` on the ordered dict: replace in place, else append. -/
def setKey (acc : List (List Char × List (List Char))) (k : List Char)
    (v : List (List Char)) : List (List Char × List (List Char)) :=
  match acc with
  | [] => [(k, v)]
  | (k', vs) :: rest =>
    if k' == k then (k', v) :: rest
    else (k', vs) :: setKey rest k v

/-- `"&".join` of a list of fields. -/
def joinAmp : List (List Char) → List Char
  | [] => []
  | [f] => f
  | f :: fs => f ++ '&' :: joinAmp fs

/-- `urllib.parse.urlencode(d, doseq=True)` (no percent-encoding needed for
the inputs considered here). -/
def urlencode (d : List (List Char × List (List Char))) : List Char :=
  joinAmp (d.flatMap fun kv => kv.2.map fun v => kv.1 ++ '=' :: v)

/-- `str.rstrip('/')`. -/
def rstripSlash (l : List Char) : List Char :=
  (l.reverse.dropWhile (· == '/')).reverse

/-- `str.endswith` (pattern first). -/
def endsWithL (pat l : List Char) : Bool :=
  startsWithL pat.reverse l.reverse

/-- `URLPaginationStrategy` configuration: `url_patterns` and
`page_param`. -/
structure URLStratConfig where
  url_patterns : List URLPat
  page_param : List Char

/-- `URLPaginationStrategy.get_next_page` (strategy.py lines 81–154).
Path-shaped patterns are checked first; a match rewrites every occurrence
to `/page/{next}/`.  Otherwise the query-shaped patterns are checked; a
discovered page of 1 (including no match at all) takes the heuristic
first-page branch appending `/page/{next}/` — unless the stripped URL ends
with `/page/1`, in which case (like any discovered page ≥ 2) the `page`
query parameter is rewritten/inserted. -/
def get_next_page (cfg : URLStratConfig) (current_url : List Char) :
    Option (List Char) :=
  let parsed := urlparse current_url
  let query_params := parse_qs parsed.query
  match firstPathMatch cfg.url_patterns current_url with
  | some (seg, ds) =>
    let next := parseNat ds + 1
    some (subAllPath seg ("/page/".data ++ natRepr next ++ ['/']) current_url)
  | none =>
    let current : Nat :=
      match firstQueryMatch cfg.url_patterns current_url with
      | some ds => parseNat ds
      | none => 1
    let next := current + 1
    let standard : List Char :=
      urlunparse { parsed with
        query := urlencode (setKey query_params cfg.page_param [natRepr next]) }
    if current == 1 then
      let base := rstripSlash current_url
      if !endsWithL "/page/1".data base then
        some (base ++ "/page/".data ++ natRepr next ++ ['/'])
      else some standard
    else some standard

/-! Detector (detector.py) -/

/-- `PaginationDetector._detect_url_patterns` (detector.py lines 199–224):
query parameters named `page|p|pg|pageno|pagenumber` present in the parsed
query, then path regexes `/page/(\d+)`, `/p/(\d+)`, `/pg/(\d+)` searched
in the full URL. -/
def detect_url_patterns (url : List Char) : List (List Char) :=
  let qp := parse_qs (urlparse url).query
  let fromParams :=
    (["page".data, "p".data, "pg".data, "pageno".data, "pagenumber".data].filter
      fun p => qp.any fun kv => kv.1 == p).map
      fun p => p ++ "=<number>".data
  let fromPath :=
    (["/page/".data, "/p/".data, "/pg/".data].filter
      fun seg => (scanFor (ppathTest seg) url).isSome).map
      fun seg => seg ++ "<number>".data
  fromParams ++ fromPath

/-- Abstract view of the DOM queries the detector makes against the
browser: element counts per selector family, the current URL, the results
of the two DOM-based number extractions, and the infinite-scroll probe. -/
structure PageModel where
  containerCount : Nat
  nextCount : Nat
  prevCount : Nat
  pageNumCount : Nat
  currentCount : Nat
  url : String
  totalPagesExtracted : Option Int
  currentPageExtracted : Option Int
  hasInfiniteScroll : Bool

def truthyOptNat : Option Nat → Bool
  | none => false
  | some n => n != 0

/-- The Detection Info dictionary (detector.py lines 112–185).  The float
confidence score is embedded in exact tenths: every contribution is a
multiple of 0.1 and, for the thresholds the code compares against, IEEE
double accumulation of these literals decides exactly like exact decimal
arithmetic does. -/
structure PaginationInfo where
  has_pagination : Bool
  strategy : Option String
  container : Option Nat
  next_button : Option Nat
  prev_button : Option Nat
  page_numbers : Option Nat
  current_page_elems : Option Nat
  url_patterns : List (List Char)
  total_pages : Option Int
  current_page : Int
  confidence : Nat
  deriving Repr, DecidableEq

/-- `PaginationDetector._get_pagination_info` (detector.py lines 112–185):
sequential additive scoring, clipped to 1.0 (10 tenths) at the end. -/
def get_pagination_info (p : PageModel) : PaginationInfo :=
  let conf1 : Nat := if p.containerCount != 0 then 3 else 0
  let conf2 := conf1 + if p.nextCount != 0 then 2 else 0
  let conf3 := conf2 + if p.prevCount != 0 then 1 else 0
  let conf4 := conf3 + if p.pageNumCount != 0 then 2 else 0
  let conf5 := conf4 + if p.currentCount != 0 then 1 else 0
  let pats := detect_url_patterns p.url.data
  let conf6 := conf5 + if !pats.isEmpty then 2 else 0
  let conf7 := conf6 + if truthyOptInt p.totalPagesExtracted then 1 else 0
  let conf8 := conf7 + if p.hasInfiniteScroll then 3 else 0
  { has_pagination := p.containerCount != 0 || p.hasInfiniteScroll
    strategy := if p.hasInfiniteScroll then some "infinite_scroll" else none
    container := if p.containerCount != 0 then some p.containerCount else none
    next_button := if p.nextCount != 0 then some p.nextCount else none
    prev_button := if p.prevCount != 0 then some p.prevCount else none
    page_numbers := if p.pageNumCount != 0 then some p.pageNumCount else none
    current_page_elems :=
      if p.currentCount != 0 then some p.currentCount else none
    url_patterns := pats
    total_pages :=
      if truthyOptInt p.totalPagesExtracted then p.totalPagesExtracted else none
    current_page :=
      if truthyOptInt p.currentPageExtracted then p.currentPageExtracted.getD 1
      else 1
    confidence := min 10 conf8 }

/-- `PaginationDetector._determine_best_strategy` (detector.py lines
338–360): reads only the Detection Info (the driver argument is unused in
the source, so the embedding omits it — the recommendation is a pure
function of the info). -/
def determine_best_strategy (info : PaginationInfo) : String :=
  if info.confidence < 3 then "auto"
  else if info.strategy == some "infinite_scroll" then "infinite_scroll"
  else if !info.url_patterns.isEmpty then "url"
  else if truthyOptNat info.next_button || truthyOptNat info.page_numbers then
    "javascript"
  else "auto"

/-! Strategy capability checks and the Navigator fallback -/

/-- Abstract view of the browser facts the strategies consult, plus the
outcomes of the (external, side-effecting) navigation steps. -/
structure BrowserModel where
  currentUrl : String
  jsPaginationElems : Bool
  jsNextButtons : Bool
  scrollIndicators : Bool
  loadMoreButtons : Bool
  urlNavigateResult : Bool
  jsNavigateResult : Bool

/-- `URLPaginationStrategy.can_handle` (strategy.py lines 68–79): returns
`True` on a pattern match, and `True` anyway ("Most URLs can accept page
parameters"). -/
def urlCanHandle (cfg : URLStratConfig) (b : BrowserModel) : Bool :=
  if cfg.url_patterns.any fun p => (patSearch p b.currentUrl.data).isSome then
    true
  else true

/-- `JavaScriptPaginationStrategy.can_handle` (strategy.py lines 242–260). -/
def jsCanHandle (b : BrowserModel) : Bool :=
  b.jsPaginationElems || b.jsNextButtons

/-- `InfiniteScrollStrategy.can_handle` (strategy.py lines 352–376). -/
def scrollCanHandle (b : BrowserModel) : Bool :=
  b.scrollIndicators || b.loadMoreButtons

inductive StratKind where
  | url | javascript | infinite_scroll
  deriving Repr, DecidableEq

/-- `AutoPaginationStrategy.can_handle` (strategy.py lines 444–451): tries
the ordered list [URL, JavaScript, InfiniteScroll]; returns the binding it
commits to (`none` = returns `False`). -/
def autoCanHandle (cfg : URLStratConfig) (b : BrowserModel) :
    Option StratKind :=
  if urlCanHandle cfg b then some .url
  else if jsCanHandle b then some .javascript
  else if scrollCanHandle b then some .infinite_scroll
  else none

/-- `PaginationNavigator._try_alternative_navigation` (navigator.py lines
169–189): when the bound strategy is not URL-based and the URL strategy
claims capability, return its navigation outcome; else likewise for
JavaScript; else `False`. -/
def try_alternative_navigation (name : String) (cfg : URLStratConfig)
    (b : BrowserModel) : Bool :=
  if name != "url" && urlCanHandle cfg b then b.urlNavigateResult
  else if name != "javascript" && jsCanHandle b then b.jsNavigateResult
  else false

/-! Navigator (navigator.py) -/

/-- The Navigator fields `navigate_to_next` reads and writes. -/
structure NavState where
  state : PaginationState
  is_initialized : Bool
  max_pages : Option Int
  max_items : Option Int
  deriving Repr, DecidableEq

/-- `PaginationNavigator.can_continue` (navigator.py lines 85–90). -/
def NavState.canContinue (nav : NavState) : Bool :=
  nav.is_initialized && nav.state.can_continue nav.max_pages nav.max_items

/-- `PaginationNavigator.navigate_to_next` (navigator.py lines 92–140).
The caller-supplied extractor is embedded by its outcome: `none` = no
extractor, `some (.ok n)` = returned `n` items, `some (.error e)` = raised.
A raising extractor is caught by the inner `try` and leaves
`items_found = 0`; the current page is then marked *successful* either
way.  `navSuccess` abstracts the outcome of `_navigate_with_retry`
(browser-dependent). -/
def navigate_to_next (nav : NavState) (extractor : Option (Except String Int))
    (navSuccess : Bool) (now : Nat) : NavState × Bool :=
  if !nav.is_initialized then (nav, false)
  else if !nav.canContinue then (nav, false)
  else
    let items_found : Int :=
      match extractor with
      | none => 0
      | some (.ok n) => n
      | some (.error _) => 0
    let s1 := nav.state.mark_page_success nav.state.current_page items_found now
    if navSuccess then ({ nav with state := (s1.next_page now).1 }, true)
    else ({ nav with state := s1.mark_page_failed s1.current_page now }, false)

/-! Spec-side definitions (for refinement comparison)

These two follow the wording of the specification, not the source, and are
compared against the source-derived `PaginationState.can_continue`. -/

/-- `canContinue` as the spec states it: a limit is "set" when it is
present (`Option.isSome`), with the three checks in order. -/
def can_continue_spec (s : PaginationState) (max_pages max_items : Option Int) :
    Bool :=
  if max_pages.isSome && decide (s.current_page ≥ max_pages.getD 0) then false
  else if max_items.isSome && decide (s.total_items ≥ max_items.getD 0) then
    false
  else if s.total_pages.isSome && decide (s.current_page > s.total_pages.getD 0)
    then false
  else true

/-- `canContinue` as amended: a limit only takes effect when it is set
*and nonzero* (Python truthiness), the three checks in order. -/
def can_continue_amended (s : PaginationState)
    (max_pages max_items : Option Int) : Bool :=
  if truthyOptInt max_pages && decide (s.current_page ≥ max_pages.getD 0) then
    false
  else if truthyOptInt max_items && decide (s.total_items ≥ max_items.getD 0)
    then false
  else if truthyOptInt s.total_pages && decide (s.current_page > s.total_pages.getD 0)
    then false
  else true

/-- `set_page` at the level of the Python object: the pair (state after the
call, outcome).  The `raise` in the source happens before any assignment,
so on error the object is exactly the one passed in. -/
def set_page_run (page : Int) (now : Nat) (s : PaginationState) :
    PaginationState × Except String Unit :=
  match s.set_page page now with
  | .ok t => (t, .ok ())
  | .error e => (s, .error e)

/-- The page of Scenario 3: container, next button and page-number links
present; no prev button, no current-page indicator, a URL with no
pagination pattern, no extractable total, no infinite-scroll indicator. -/
def scenario3Page : PageModel :=
  { containerCount := 1
    nextCount := 1
    prevCount := 0
    pageNumCount := 3
    currentCount := 0
    url := "https://site.com/list"
    totalPagesExtracted := none
    currentPageExtracted := none
    hasInfiniteScroll := false }

/-- An initialized Navigator at a fresh state with the default limits
(navigator.py lines 37–38). -/
def navExample : NavState :=
  { state := PaginationState.fresh 0
    is_initialized := true
    max_pages := some 100
    max_items := some 1000 }

/-- A URL strategy configuration with the default patterns and default
`page_param`. -/
def cfgExample : URLStratConfig :=
  { url_patterns := defaultURLPatterns, page_param := "page".data }

/-- A browser whose page offers nothing the JavaScript or infinite-scroll
strategies could latch onto. -/
def browserExample : BrowserModel :=
  { currentUrl := "https://site.com/list?page=2"
    jsPaginationElems := false
    jsNextButtons := false
    scrollIndicators := false
    loadMoreButtons := false
    urlNavigateResult := true
    jsNavigateResult := false }

/-! General lemmas -/

theorem digitChar_isDigit {d : Nat} (h : d < 10) :
    (Nat.digitChar d).isDigit = true := by
  interval_cases d <;> decide

theorem digitChar_toNat {d : Nat} (h : d < 10) :
    (Nat.digitChar d).toNat = d + 48 := by
  interval_cases d <;> decide

theorem parseNat_append_singleton (a : List Char) (c : Char) :
    parseNat (a ++ [c]) = parseNat a * 10 + (c.toNat - 48) := by
  simp [parseNat, List.foldl_append]

theorem natReprGo_spec (n : Nat) :
    ∀ fuel acc, n < fuel → natReprGo fuel n acc = natRepr n ++ acc := by
  induction n using Nat.strong_induction_on with
  | _ n ih =>
    intro fuel acc hlt
    match fuel with
    | 0 => omega
    | f + 1 =>
      by_cases h10 : n < 10
      · simp [natReprGo, natRepr, h10]
      · have hdiv : n / 10 < n := Nat.div_lt_self (by omega) (by omega)
        have hgo : natReprGo (f + 1) n acc =
            natReprGo f (n / 10) (Nat.digitChar (n % 10) :: acc) := by
          simp [natReprGo, h10]
        have hrepr : natRepr n =
            natRepr (n / 10) ++ [Nat.digitChar (n % 10)] := by
          show natReprGo (n + 1) n [] = _
          have : natReprGo (n + 1) n [] =
              natReprGo n (n / 10) (Nat.digitChar (n % 10) :: []) := by
            simp [natReprGo, h10]
          rw [this, ih (n / 10) hdiv n [Nat.digitChar (n % 10)] hdiv]
        rw [hgo, ih (n / 10) hdiv f _ (by omega), hrepr, List.append_assoc]
        rfl

theorem natRepr_unfold (n : Nat) :
    natRepr n =
      if n < 10 then [Nat.digitChar n]
      else natRepr (n / 10) ++ [Nat.digitChar (n % 10)] := by
  by_cases h10 : n < 10
  · simp [natRepr, natReprGo, h10]
  · have hdiv : n / 10 < n := Nat.div_lt_self (by omega) (by omega)
    have : natRepr n = natReprGo n (n / 10) (Nat.digitChar (n % 10) :: []) := by
      simp [natRepr, natReprGo, h10]
    rw [this, natReprGo_spec (n / 10) n _ hdiv]
    simp [h10]

theorem natRepr_ne_nil (n : Nat) : natRepr n ≠ [] := by
  rw [natRepr_unfold]
  split <;> simp

theorem natRepr_all_digits (n : Nat) :
    ∀ c ∈ natRepr n, c.isDigit = true := by
  induction n using Nat.strong_induction_on with
  | _ n ih =>
    rw [natRepr_unfold]
    split
    · next h =>
      intro c hc
      simp only [List.mem_singleton] at hc
      exact hc ▸ digitChar_isDigit h
    · next h =>
      intro c hc
      rcases List.mem_append.mp hc with h1 | h2
      · exact ih (n / 10) (Nat.div_lt_self (by omega) (by omega)) c h1
      · simp only [List.mem_singleton] at h2
        exact h2 ▸ digitChar_isDigit (Nat.mod_lt _ (by omega))

theorem parseNat_natRepr (n : Nat) : parseNat (natRepr n) = n := by
  induction n using Nat.strong_induction_on with
  | _ n ih =>
    rw [natRepr_unfold]
    split
    · next h =>
      simp [parseNat, digitChar_toNat h]
    · next h =>
      rw [parseNat_append_singleton,
        ih (n / 10) (Nat.div_lt_self (by omega) (by omega)),
        digitChar_toNat (Nat.mod_lt _ (by omega))]
      omega

theorem fromisoformat_isoformat (t : Nat) :
    fromisoformat (isoformat t) = some t := by
  have hd : (natRepr t).all Char.isDigit = true :=
    List.all_eq_true.mpr fun c hc => natRepr_all_digits t c hc
  have hne : (natRepr t).isEmpty = false := by
    cases h : natRepr t with
    | nil => exact absurd h (natRepr_ne_nil t)
    | cons a l => rfl
  simp [fromisoformat, isoformat, hd, hne, parseNat_natRepr]

theorem isDigit_ne {c x : Char} (h : c.isDigit = true)
    (hx : x.isDigit = false) : c ≠ x := by
  intro e
  subst e
  rw [h] at hx
  simp at hx

theorem takeDigitsL_all {l : List Char} (h : ∀ c ∈ l, c.isDigit = true) :
    takeDigitsL l = l := by
  induction l with
  | nil => rfl
  | cons c cs ih =>
    simp [takeDigitsL, h c (List.mem_cons_self _ _),
      ih fun x hx => h x (List.mem_cons_of_mem _ hx)]

theorem startsWithL_self_append (p t : List Char) :
    startsWithL p (p ++ t) = true := by
  induction p with
  | nil => rfl
  | cons c cs ih => simp [startsWithL, ih]

theorem scanFor_cons_none {test : List Char → Option (List Char)}
    {c : Char} {cs : List Char} (h : test (c :: cs) = none) :
    scanFor test (c :: cs) = scanFor test cs := by
  simp [scanFor, h]

theorem scanFor_cons_some {test : List Char → Option (List Char)}
    {c : Char} {cs r : List Char} (h : test (c :: cs) = some r) :
    scanFor test (c :: cs) = some r := by
  simp [scanFor, h]

theorem qparamTest_not_trigger {c : Char} (name cs : List Char)
    (h1 : c ≠ '?') (h2 : c ≠ '&') : qparamTest name (c :: cs) = none := by
  have b1 : (c == '?') = false := beq_eq_false_iff_ne.mpr h1
  have b2 : (c == '&') = false := beq_eq_false_iff_ne.mpr h2
  simp [qparamTest, b1, b2]

theorem ppathTest_not_slash {c : Char} (seg cs : List Char) (h : c ≠ '/') :
    ppathTest ('/' :: seg) (c :: cs) = none := by
  have b : ('/' == c) = false := beq_eq_false_iff_ne.mpr fun e => h e.symm
  simp [ppathTest, startsWithL, b]

theorem scanFor_qparam_append (name l1 l2 : List Char)
    (h : ∀ c ∈ l1, c ≠ '?' ∧ c ≠ '&') :
    scanFor (qparamTest name) (l1 ++ l2) = scanFor (qparamTest name) l2 := by
  induction l1 with
  | nil => rfl
  | cons c cs ih =>
    have hc := h c (List.mem_cons_self _ _)
    rw [List.cons_append,
      scanFor_cons_none (qparamTest_not_trigger name _ hc.1 hc.2)]
    exact ih fun x hx => h x (List.mem_cons_of_mem _ hx)

theorem scanFor_ppath_append (seg l1 l2 : List Char)
    (h : ∀ c ∈ l1, c ≠ '/') :
    scanFor (ppathTest ('/' :: seg)) (l1 ++ l2) =
      scanFor (ppathTest ('/' :: seg)) l2 := by
  induction l1 with
  | nil => rfl
  | cons c cs ih =>
    rw [List.cons_append,
      scanFor_cons_none (ppathTest_not_slash seg _ (h c (List.mem_cons_self _ _)))]
    exact ih fun x hx => h x (List.mem_cons_of_mem _ hx)

theorem scanFor_qparam_digits (name ds : List Char)
    (h : ∀ c ∈ ds, c.isDigit = true) :
    scanFor (qparamTest name) ds = none := by
  have := scanFor_qparam_append name ds []
    (fun c hc => ⟨isDigit_ne (h c hc) (by decide),
                  isDigit_ne (h c hc) (by decide)⟩)
  simpa using this

theorem scanFor_ppath_digits (seg ds : List Char)
    (h : ∀ c ∈ ds, c.isDigit = true) :
    scanFor (ppathTest ('/' :: seg)) ds = none := by
  have := scanFor_ppath_append seg ds []
    (fun c hc => isDigit_ne (h c hc) (by decide))
  simpa using this

theorem qparamTest_match (name t : List Char) :
    qparamTest name ('?' :: (name ++ '=' :: t)) =
      if (takeDigitsL t).isEmpty then none else some (takeDigitsL t) := by
  have hshape : name ++ '=' :: t = (name ++ ['=']) ++ t := by simp
  have h1 : startsWithL (name ++ ['=']) (name ++ '=' :: t) = true := by
    rw [hshape]; exact startsWithL_self_append _ _
  have h2 : (name ++ '=' :: t).drop (name.length + 1) = t := by
    rw [hshape]
    have hlen : (name ++ ['=']).length = name.length + 1 := by simp
    rw [← hlen, List.drop_left]
  simp [qparamTest, h1, h2]

theorem splitFirst_not_mem {ch : Char} {l : List Char}
    (h : ∀ x ∈ l, x ≠ ch) : splitFirst ch l = (l, none) := by
  induction l with
  | nil => rfl
  | cons x xs ih =>
    have hx : (x == ch) = false :=
      beq_eq_false_iff_ne.mpr (h x (List.mem_cons_self _ _))
    simp [splitFirst, hx, ih fun y hy => h y (List.mem_cons_of_mem _ hy)]

theorem splitFirst_found {ch : Char} {l1 : List Char} (l2 : List Char)
    (h : ∀ x ∈ l1, x ≠ ch) :
    splitFirst ch (l1 ++ ch :: l2) = (l1, some l2) := by
  induction l1 with
  | nil => simp [splitFirst]
  | cons x xs ih =>
    have hx : (x == ch) = false :=
      beq_eq_false_iff_ne.mpr (h x (List.mem_cons_self _ _))
    simp [splitFirst, hx, ih fun y hy => h y (List.mem_cons_of_mem _ hy)]

theorem splitOnAux_no_sep {ch : Char} {l : List Char} (acc : List Char)
    (h : ∀ x ∈ l, x ≠ ch) : splitOnAux ch l acc = [acc.reverse ++ l] := by
  induction l generalizing acc with
  | nil => simp [splitOnAux]
  | cons x xs ih =>
    have hx : (x == ch) = false :=
      beq_eq_false_iff_ne.mpr (h x (List.mem_cons_self _ _))
    rw [splitOnAux, if_neg (by simp [hx]),
      ih (x :: acc) fun y hy => h y (List.mem_cons_of_mem _ hy)]
    simp

/-- Saving and loading back: every field survives except `last_activity`,
which `__post_init__` overwrites with the load-time clock. -/
theorem load_save_state_eq (s : PaginationState) (now : Nat) :
    load_state (some (save_state s)) now = { s with last_activity := now } := by
  simp [load_state, save_state, fromisoformat_isoformat,
    PaginationState.construct]

/-! Computation lemmas for `get_next_page` on URLs of the shape
`https://site.com/list?page=<digits>`. -/

theorem c4aux_scan_page_none (ds : List Char)
    (h : ∀ c ∈ ds, c.isDigit = true) :
    scanFor (ppathTest "/page/".data)
      ("https://site.com/list?page=".data ++ ds) = none := by
  have e0 : "/page/".data = '/' :: "page/".data := rfl
  have e : "https://site.com/list?page=".data ++ ds =
      "https:".data ++
        ('/' :: '/' :: ("site.com".data ++
          '/' :: ("list?page=".data ++ ds))) := rfl
  rw [e0, e, scanFor_ppath_append _ _ _ (by decide)]
  have s1 : ppathTest ('/' :: "page/".data)
      ('/' :: '/' :: ("site.com".data ++ '/' :: ("list?page=".data ++ ds)))
      = none := rfl
  have s2 : ppathTest ('/' :: "page/".data)
      ('/' :: ("site.com".data ++ '/' :: ("list?page=".data ++ ds)))
      = none := rfl
  rw [scanFor_cons_none s1, scanFor_cons_none s2,
    scanFor_ppath_append _ _ _ (by decide)]
  have s3 : ppathTest ('/' :: "page/".data)
      ('/' :: ("list?page=".data ++ ds)) = none := rfl
  rw [scanFor_cons_none s3, scanFor_ppath_append _ _ _ (by decide)]
  exact scanFor_ppath_digits _ ds h

theorem c4aux_scan_p_none (ds : List Char)
    (h : ∀ c ∈ ds, c.isDigit = true) :
    scanFor (ppathTest "/p/".data)
      ("https://site.com/list?page=".data ++ ds) = none := by
  have e0 : "/p/".data = '/' :: "p/".data := rfl
  have e : "https://site.com/list?page=".data ++ ds =
      "https:".data ++
        ('/' :: '/' :: ("site.com".data ++
          '/' :: ("list?page=".data ++ ds))) := rfl
  rw [e0, e, scanFor_ppath_append _ _ _ (by decide)]
  have s1 : ppathTest ('/' :: "p/".data)
      ('/' :: '/' :: ("site.com".data ++ '/' :: ("list?page=".data ++ ds)))
      = none := rfl
  have s2 : ppathTest ('/' :: "p/".data)
      ('/' :: ("site.com".data ++ '/' :: ("list?page=".data ++ ds)))
      = none := rfl
  rw [scanFor_cons_none s1, scanFor_cons_none s2,
    scanFor_ppath_append _ _ _ (by decide)]
  have s3 : ppathTest ('/' :: "p/".data)
      ('/' :: ("list?page=".data ++ ds)) = none := rfl
  rw [scanFor_cons_none s3, scanFor_ppath_append _ _ _ (by decide)]
  exact scanFor_ppath_digits _ ds h

theorem c4aux_scan_query (ds : List Char) (hne : ds ≠ [])
    (h : ∀ c ∈ ds, c.isDigit = true) :
    scanFor (qparamTest "page".data)
      ("https://site.com/list?page=".data ++ ds) = some ds := by
  have e : "https://site.com/list?page=".data ++ ds =
      "https://site.com/list".data ++ ('?' :: ("page".data ++ '=' :: ds)) :=
    rfl
  rw [e, scanFor_qparam_append _ _ _ (by decide)]
  have hm : qparamTest "page".data ('?' :: ("page".data ++ '=' :: ds))
      = some ds := by
    rw [qparamTest_match, takeDigitsL_all h]
    have hdse : ds.isEmpty = false := by
      cases ds with
      | nil => exact absurd rfl hne
      | cons _ _ => rfl
    simp [hdse]
  exact scanFor_cons_some hm

theorem c4aux_firstPath (ds : List Char)
    (h : ∀ c ∈ ds, c.isDigit = true) :
    firstPathMatch defaultURLPatterns
      ("https://site.com/list?page=".data ++ ds) = none := by
  simp only [defaultURLPatterns, firstPathMatch]
  rw [c4aux_scan_page_none ds h, c4aux_scan_p_none ds h]

theorem c4aux_firstQuery (ds : List Char) (hne : ds ≠ [])
    (h : ∀ c ∈ ds, c.isDigit = true) :
    firstQueryMatch defaultURLPatterns
      ("https://site.com/list?page=".data ++ ds) = some ds := by
  simp only [defaultURLPatterns, firstQueryMatch]
  rw [c4aux_scan_query ds hne h]

theorem c4aux_urlparse (ds : List Char)
    (h : ∀ c ∈ ds, c.isDigit = true) :
    urlparse ("https://site.com/list?page=".data ++ ds) =
      { scheme := "https".data
        netloc := "site.com".data
        path := "/list".data
        query := "page=".data ++ ds
        fragment := [] } := by
  have hsch : splitScheme ("https://site.com/list?page=".data ++ ds) =
      some ("https".data, "site.com/list?page=".data ++ ds) := rfl
  have htw : ("site.com/list?page=".data ++ ds).takeWhile notNetlocEnd =
      "site.com".data := rfl
  have hdw : ("site.com/list?page=".data ++ ds).dropWhile notNetlocEnd =
      "/list?page=".data ++ ds := rfl
  have hsf : splitFirst '#' ("/list?page=".data ++ ds) =
      ("/list?page=".data ++ ds, none) := by
    apply splitFirst_not_mem
    intro x hx
    rcases List.mem_append.mp hx with h1 | h2
    · exact (show ∀ y ∈ "/list?page=".data, y ≠ '#' by decide) x h1
    · exact isDigit_ne (h x h2) (by decide)
  have hsq : splitFirst '?' ("/list?page=".data ++ ds) =
      ("/list".data, some ("page=".data ++ ds)) := by
    have e : "/list?page=".data ++ ds =
        "/list".data ++ '?' :: ("page=".data ++ ds) := rfl
    rw [e]
    exact splitFirst_found _ (by decide)
  simp only [urlparse, hsch, htw, hdw, hsf, hsq, Option.getD]

theorem c4aux_parse_qs (ds : List Char) (hne : ds ≠ [])
    (h : ∀ c ∈ ds, c.isDigit = true) :
    parse_qs ("page=".data ++ ds) = [("page".data, [ds])] := by
  have hsplit : splitOn '&' ("page=".data ++ ds) = ["page=".data ++ ds] := by
    unfold splitOn
    rw [splitOnAux_no_sep []]
    · simp
    · intro x hx
      rcases List.mem_append.mp hx with h1 | h2
      · exact (show ∀ y ∈ "page=".data, y ≠ '&' by decide) x h1
      · exact isDigit_ne (h x h2) (by decide)
  have hfield : splitFirst '=' ("page=".data ++ ds) =
      ("page".data, some ds) := by
    have e : "page=".data ++ ds = "page".data ++ '=' :: ds := rfl
    rw [e]
    exact splitFirst_found _ (by decide)
  have hdse : ds.isEmpty = false := by
    cases ds with
    | nil => exact absurd rfl hne
    | cons _ _ => rfl
  simp only [parse_qs, parseQFields, hsplit, hfield, hdse,
    List.filterMap_cons, List.filterMap_nil, List.foldl_cons, List.foldl_nil,
    insertGrouped, Bool.false_eq_true, if_false]

/-! Claims -/

/-- C1 counterexample.  The claim "saving and then loading yields a
state equal to `s` in every field (... `last_activity` ...)" fails at the
fresh state saved at clock 0 and loaded at clock 1: `last_activity` comes
back as the load time, not the saved value. -/
theorem c1_roundtrip_counterexample :
    (load_state (some (save_state (PaginationState.fresh 0))) 1).last_activity
        = 1 ∧
    (PaginationState.fresh 0).last_activity = 0 ∧
    load_state (some (save_state (PaginationState.fresh 0))) 1 ≠
      PaginationState.fresh 0 := by
  refine ⟨by decide, rfl, ?_⟩
  decide

/-- C1 amended.  `save_state` followed by `load_state` reproduces
`current_page`, `total_pages`, `total_items`, `items_per_page`, `strategy`,
`last_successful_page`, `failed_pages` membership, `start_time` (via the
ISO text round-trip) and `session_id` exactly; `last_activity` alone is
replaced by the load-time clock, because `__post_init__` overwrites it. -/
theorem c1_roundtrip_amended (s : PaginationState) (now : Nat) :
    load_state (some (save_state s)) now = { s with last_activity := now } :=
  load_save_state_eq s now

/-- C3 counterexample.  With `max_pages = 0` (a set limit, and
`current_page = 1 ≥ 0`) the claim requires `can_continue` to return
`false`, but the source tests the limit with Python truthiness, treats `0`
as unset, and returns `true`. -/
theorem c3_can_continue_counterexample :
    (PaginationState.fresh 0).can_continue (some 0) none = true ∧
    can_continue_spec (PaginationState.fresh 0) (some 0) none = false := by
  decide

/-- C3 amended.  `can_continue` returns false if `max_pages` is set
*to a nonzero value* and `current_page ≥ max_pages` (regardless of
`total_items`); else false if `max_items` is set and nonzero and
`total_items ≥ max_items`; else false if `total_pages` is known and
nonzero and `current_page > total_pages`; otherwise true — in that order,
first failing check short-circuiting. -/
theorem c3_can_continue_amended (s : PaginationState)
    (max_pages max_items : Option Int) :
    s.can_continue max_pages max_items =
      can_continue_amended s max_pages max_items := rfl

/-- C7 counterexample.  A single `mark_page_success` call with a
negative `items_found` (the source never guards against one) decreases
`total_items`, so the claim fails for that one-element sequence. -/
theorem c7_monotone_counterexample :
    ¬ (∀ (s : PaginationState) (ops : List RecordOp),
        s.total_items ≤ (applyRecordOps ops s).total_items) := by
  intro h
  exact absurd (h (PaginationState.fresh 0) [.success 1 (-1) 0]) (by decide)

/-- C7 amended.  For every sequence of `mark_page_success` /
`mark_page_failed` calls in which each success reports a non-negative item
count, `total_items` is monotonically non-decreasing (from any starting
state, hence across every prefix of the sequence). -/
theorem c7_monotone_amended (s : PaginationState) (ops : List RecordOp)
    (h : ∀ op ∈ ops, op.nonNegItems) :
    s.total_items ≤ (applyRecordOps ops s).total_items := by
  induction ops generalizing s with
  | nil => simp [applyRecordOps]
  | cons op rest ih =>
    have hstep : s.total_items ≤ (applyRecordOp op s).total_items := by
      cases op with
      | success page items n =>
        have : (0 : Int) ≤ items := h _ (List.mem_cons_self _ _)
        simp only [applyRecordOp, PaginationState.mark_page_success]
        omega
      | failure page n =>
        simp [applyRecordOp, PaginationState.mark_page_failed]
    calc s.total_items ≤ (applyRecordOp op s).total_items := hstep
      _ ≤ (applyRecordOps rest (applyRecordOp op s)).total_items :=
        ih _ fun o ho => h o (List.mem_cons_of_mem _ ho)
      _ = (applyRecordOps (op :: rest) s).total_items := by
        simp [applyRecordOps]

theorem c7_monotone_amended_witness :
    (PaginationState.fresh 0).total_items ≤
      (applyRecordOps [.success 1 7 0, .failure 2 0]
        (PaginationState.fresh 0)).total_items :=
  c7_monotone_amended (PaginationState.fresh 0) [.success 1 7 0, .failure 2 0]
    (by decide)

/-- C8.  `set_page n` for `n < 1` raises `ValueError` ("Page number
must be >= 1") and — the raise preceding every assignment — leaves the
object exactly as it was, `last_activity` included; for `n ≥ 1` it sets
`current_page` to `n` (and stamps `last_activity`). -/
theorem c8_set_page (s : PaginationState) (page : Int) (now : Nat) :
    (page < 1 →
      set_page_run page now s = (s, .error "Page number must be >= 1")) ∧
    (1 ≤ page →
      set_page_run page now s =
        ({ s with current_page := page, last_activity := now }, .ok ())) := by
  constructor
  · intro h
    simp [set_page_run, PaginationState.set_page, h]
  · intro h
    simp [set_page_run, PaginationState.set_page, show ¬ page < 1 by omega]

theorem c8_set_page_witness :
    ((0 : Int) < 1 ∧
      set_page_run 0 5 (PaginationState.fresh 0) =
        (PaginationState.fresh 0, .error "Page number must be >= 1")) ∧
    ((1 : Int) ≤ 3 ∧
      set_page_run 3 5 (PaginationState.fresh 0) =
        ({ PaginationState.fresh 0 with
            current_page := 3, last_activity := 5 }, .ok ())) :=
  ⟨⟨by decide, (c8_set_page (PaginationState.fresh 0) 0 5).1 (by decide)⟩,
   ⟨by decide, (c8_set_page (PaginationState.fresh 0) 3 5).2 (by decide)⟩⟩

/-- C9 counterexample.  The claim says `reset` restores *all* fields
to their defaults (strategy to its default, `session_id` to none).  On a
state whose strategy is `"url"` and whose session id is set, `reset` does
not produce the default state: the source never touches `strategy` or
`session_id`. -/
theorem c9_reset_counterexample :
    (PaginationState.reset 1
        { PaginationState.fresh 0 with
            strategy := "url", session_id := some "sess" }).strategy = "url" ∧
    (PaginationState.reset 1
        { PaginationState.fresh 0 with
            strategy := "url", session_id := some "sess" }).session_id =
      some "sess" ∧
    PaginationState.reset 1
        { PaginationState.fresh 0 with
            strategy := "url", session_id := some "sess" } ≠
      PaginationState.fresh 1 := by
  refine ⟨rfl, rfl, ?_⟩
  decide

/-- C9 amended.  `reset` restores `current_page`, `total_pages`,
`total_items`, `items_per_page`, `last_successful_page` and `failed_pages`
to their initial defaults and resets `start_time` (and `last_activity`) to
now — but leaves `strategy` and `session_id` unchanged. -/
theorem c9_reset_amended (s : PaginationState) (now : Nat) :
    PaginationState.reset now s =
      { PaginationState.fresh now with
          strategy := s.strategy, session_id := s.session_id } := by
  cases s
  rfl

/-- C6 counterexample.  `failed_pages ⊆ {1..current_page}` is not an
invariant of the public operations: `mark_page_failed(5)` on a fresh state
(allowed — the method accepts any page argument) puts 5 into
`failed_pages` while `current_page` is 1. -/
theorem c6_invariant_counterexample :
    ¬ (∀ s, Reachable s → 1 ≤ s.current_page ∧
        ∀ p ∈ s.failed_pages, 1 ≤ p ∧ p ≤ s.current_page) := by
  intro h
  have hr : Reachable ((PaginationState.fresh 0).mark_page_failed 5 0) :=
    Reachable.failure 5 0 (Reachable.fresh 0)
  have h5 := (h _ hr).2 5 (by decide)
  have hcp : ((PaginationState.fresh 0).mark_page_failed 5 0).current_page
      = 1 := by decide
  rw [hcp] at h5
  exact absurd h5.2 (by decide)

/-- C6 amended.  Every state reachable from the fresh state through
the public operations (`next_page`, `set_page`, `mark_page_success`,
`mark_page_failed`, `reset`, and restoring a persisted snapshot via
`load_state`, including a corrupt one) satisfies `current_page ≥ 1`.  The
`failed_pages ⊆ {1..current_page}` half of the claimed invariant is
dropped: it fails (see the counterexample). -/
theorem c6_invariant_amended (s : PaginationState) (h : Reachable s) :
    1 ≤ s.current_page := by
  induction h with
  | fresh now => exact le_refl 1
  | next now _ ih =>
    simp only [PaginationState.next_page]
    omega
  | set page now _ heq _ =>
    unfold PaginationState.set_page at heq
    split at heq
    · exact absurd heq (by simp)
    · next hlt =>
      cases heq
      show (1 : Int) ≤ page
      omega
  | success page items now _ ih =>
    simpa [PaginationState.mark_page_success] using ih
  | failure page now _ ih =>
    simpa [PaginationState.mark_page_failed] using ih
  | reset now _ _ =>
    simp [PaginationState.reset]
  | load now _ ih =>
    rw [load_save_state_eq]
    simpa using ih
  | loadFail now =>
    simp [load_state, PaginationState.fresh]

theorem c6_invariant_amended_witness :
    1 ≤ (PaginationState.fresh 3).current_page :=
  c6_invariant_amended (PaginationState.fresh 3) (Reachable.fresh 3)

/-- C2 counterexample.  With an initialized Navigator on a fresh
state, a raising extractor, and a succeeding navigation step: the
exception is caught and navigation continues, but the current page (1) is
*not* added to `failed_pages` — it is marked successful instead
(navigator.py line 121 runs unconditionally after the inner `except`). -/
theorem c2_extraction_counterexample :
    (navigate_to_next navExample (some (.error "boom")) true 1).2 = true ∧
    1 ∉ (navigate_to_next navExample
          (some (.error "boom")) true 1).1.state.failed_pages ∧
    (navigate_to_next navExample
        (some (.error "boom")) true 1).1.state.failed_pages = [] ∧
    (navigate_to_next navExample
        (some (.error "boom")) true 1).1.state.last_successful_page = 1 := by
  decide

/-- C2 amended.  If the extractor raises, the exception is caught and
the call behaves exactly as if the extractor had returned 0 items: the
current page is marked *successful* with `items_found = 0` (it is not
added to `failed_pages`), and navigation then continues. -/
theorem c2_extraction_amended (nav : NavState) (e : String)
    (navSuccess : Bool) (now : Nat) :
    navigate_to_next nav (some (.error e)) navSuccess now =
      navigate_to_next nav (some (.ok 0)) navSuccess now ∧
    (nav.is_initialized = true → nav.canContinue = true →
      (navigate_to_next nav (some (.error e)) true now).2 = true ∧
      (navigate_to_next nav
          (some (.error e)) true now).1.state.last_successful_page =
        nav.state.current_page ∧
      (nav.state.current_page ∉ nav.state.failed_pages →
        (navigate_to_next nav (some (.error e)) true now).1.state.failed_pages
          = nav.state.failed_pages)) := by
  refine ⟨rfl, fun h1 h2 => ?_⟩
  refine ⟨?_, ?_, ?_⟩
  · simp [navigate_to_next, h1, h2]
  · simp [navigate_to_next, h1, h2, PaginationState.mark_page_success,
      PaginationState.next_page]
  · intro hmem
    simp [navigate_to_next, h1, h2, PaginationState.mark_page_success,
      PaginationState.next_page, hmem]

theorem c2_extraction_amended_witness :
    navigate_to_next navExample (some (.error "boom")) true 1 =
      navigate_to_next navExample (some (.ok 0)) true 1 ∧
    (navigate_to_next navExample (some (.error "boom")) true 1).2 = true ∧
    (navigate_to_next navExample
        (some (.error "boom")) true 1).1.state.failed_pages =
      navExample.state.failed_pages := by
  obtain ⟨h1, h2⟩ := c2_extraction_amended navExample "boom" true 1
  obtain ⟨ha, _hb, hc⟩ := h2 rfl (by decide)
  exact ⟨h1, ha, hc (by decide)⟩

/-- C10.  `URLPaginationStrategy.can_handle` returns true for every
browser state; hence `AutoPaginationStrategy.can_handle` always binds the
URL strategy (the first in its ordered list) and returns true; and the
Navigator's `_try_alternative_navigation` runs the URL fallback — and
returns its outcome — whenever the bound strategy is not already
URL-based. -/
theorem c10_url_fallback (cfg : URLStratConfig) (b : BrowserModel)
    (name : String) :
    urlCanHandle cfg b = true ∧
    autoCanHandle cfg b = some .url ∧
    (name ≠ "url" →
      try_alternative_navigation name cfg b = b.urlNavigateResult) := by
  have hurl : urlCanHandle cfg b = true := by
    unfold urlCanHandle
    split <;> rfl
  refine ⟨hurl, ?_, ?_⟩
  · simp [autoCanHandle, hurl]
  · intro hname
    have hb : (name != "url") = true := by simpa [bne_iff_ne] using hname
    simp [try_alternative_navigation, hb, hurl]

theorem c10_url_fallback_witness :
    urlCanHandle cfgExample browserExample = true ∧
    autoCanHandle cfgExample browserExample = some .url ∧
    try_alternative_navigation "javascript" cfgExample browserExample =
      browserExample.urlNavigateResult := by
  obtain ⟨h1, h2, h3⟩ := c10_url_fallback cfgExample browserExample "javascript"
  exact ⟨h1, h2, h3 (by decide)⟩

/-- C5.  The detector's confidence is the clipped-to-[0,1] sum of the
additive contributions — in exact tenths: container 3, next-button 2,
prev-button 1, page-number links 2, current-page indicator 1, URL pattern
2, total-page element 1, infinite-scroll indicator 3, clipped at 10 — and
the strategy recommendation is a pure function of the Detection Info
(`determine_best_strategy` reads nothing else).  For Scenario 3 (container
+ next-button + page-numbers, no URL pattern, no infinite scroll) the
confidence is 0.7 and the recommendation is `"javascript"`. -/
theorem c5_detector_confidence (p : PageModel) :
    (get_pagination_info p).confidence =
      min 10
        ((if p.containerCount != 0 then 3 else 0) +
         (if p.nextCount != 0 then 2 else 0) +
         (if p.prevCount != 0 then 1 else 0) +
         (if p.pageNumCount != 0 then 2 else 0) +
         (if p.currentCount != 0 then 1 else 0) +
         (if !(detect_url_patterns p.url.data).isEmpty then 2 else 0) +
         (if truthyOptInt p.totalPagesExtracted then 1 else 0) +
         (if p.hasInfiniteScroll then 3 else 0)) ∧
    (get_pagination_info scenario3Page).confidence = 7 ∧
    determine_best_strategy (get_pagination_info scenario3Page) =
      "javascript" :=
  ⟨rfl, by decide, by decide⟩

/-- C4 counterexample.  `https://site.com/list?page=1` matches the
query pattern `[?&]page=(\d+)` with discovered page 1, and the claim
requires the rewritten target `https://site.com/list?page=2`; but the
source's first-page heuristic branch fires on a discovered page of 1 and
instead appends `/page/2/` to the raw URL. -/
theorem c4_query_next_counterexample :
    get_next_page cfgExample "https://site.com/list?page=1".data =
      some "https://site.com/list?page=1/page/2/".data ∧
    some "https://site.com/list?page=1/page/2/".data ≠
      some "https://site.com/list?page=2".data :=
  ⟨by decide, by decide⟩

/-- C4 amended.  For every URL `https://site.com/list?page=<digits>`
whose discovered page number is at least 2, `get_next_page` (default
patterns, `page_param = "page"`) returns the URL with the `page` query
parameter rewritten to the discovered page number plus one; a discovered
page number of 1 instead takes the heuristic first-page branch (see the
counterexample).  In particular, Scenario 2 holds:
`https://site.com/list?page=2 ↦ https://site.com/list?page=3`. -/
theorem c4_query_next_amended :
    (∀ ds : List Char, ds ≠ [] → (∀ c ∈ ds, c.isDigit = true) →
      2 ≤ parseNat ds →
      get_next_page cfgExample ("https://site.com/list?page=".data ++ ds) =
        some ("https://site.com/list?page=".data ++
          natRepr (parseNat ds + 1))) ∧
    get_next_page cfgExample "https://site.com/list?page=2".data =
      some "https://site.com/list?page=3".data := by
  constructor
  · intro ds hne hdig h2
    have hpath := c4aux_firstPath ds hdig
    have hquery := c4aux_firstQuery ds hne hdig
    have hup := c4aux_urlparse ds hdig
    have hpq := c4aux_parse_qs ds hne hdig
    have hne1 : (parseNat ds == 1) = false := beq_eq_false_iff_ne.mpr (by omega)
    simp only [get_next_page, cfgExample, hpath, hquery, hup, hpq, hne1,
      Bool.false_eq_true, if_false, setKey, beq_self_eq_true, if_true,
      urlencode, List.flatMap_cons, List.flatMap_nil, List.map_cons,
      List.map_nil, List.append_nil, joinAmp]
    simp only [urlunparse, List.cons_append, List.nil_append,
      List.isEmpty_cons, List.isEmpty_nil, eq_self_iff_true, if_true,
      Bool.false_eq_true, if_false, List.append_nil]
  · decide

theorem c4_query_next_amended_witness :
    (('7' :: ([] : List Char)) ≠ [] ∧
      (∀ c ∈ ['7'], c.isDigit = true) ∧ 2 ≤ parseNat ['7']) ∧
    get_next_page cfgExample ("https://site.com/list?page=".data ++ ['7']) =
      some ("https://site.com/list?page=".data ++
        natRepr (parseNat ['7'] + 1)) := by
  refine ⟨⟨by decide, by decide, by decide⟩, ?_⟩
  exact c4_query_next_amended.1 ['7'] (by decide) (by decide) (by decide)

end V0rtex
